import Mathlib

/-!
Shallow embedding of the offline-first synchronization subsystem of the
`ai-creator` desktop application: the SQLite-backed entity store
(`src/apps/desktop/src-tauri/src/db/repository.rs`), the sync providers
(`src/apps/desktop/src-tauri/src/sync/providers/`) and the sync engine
(`src/apps/desktop/src-tauri/src/sync/engine.rs`).

Tables are modelled as lists of row structures in insertion (rowid) order.
SQL `UPDATE ... WHERE` is a map over the list, `INSERT` appends,
`INSERT OR IGNORE` and `INSERT ... ON CONFLICT DO UPDATE` branch on the
existence of a conflicting row, and point `SELECT` is `List.find?`.
Timestamps (the Rust `now()` helper) and generated UUIDs are passed as
explicit arguments.

Column defaults are modelled from the spec: `schema.sql` is not under
`src/` (it is pulled in by `include_str!`), so the per-column defaults
follow the spec's data model (a locally created row starts with
`local_version = 1`; `server_version` starts at 0; `is_deleted` is false;
nullable columns default to NULL).
-/

/-- SQL `COALESCE(a, b)` on two nullable values: keep `b` only when the
incoming `a` is NULL. -/
def coalesce {α : Type} : Option α → Option α → Option α
  | some a, _ => some a
  | none, b => b

@[simp] theorem coalesce_some {α : Type} (a : α) (b : Option α) :
    coalesce (some a) b = some a := rfl

@[simp] theorem coalesce_none {α : Type} (b : Option α) :
    coalesce none b = b := rfl

theorem coalesce_idem {α : Type} (a b : Option α) :
    coalesce a (coalesce a b) = coalesce a b := by
  cases a <;> simp

/-- Row of the `users` table (columns as used by `repository.rs`:
`ensure_user_exists`, `sync_user`, `save_user`). -/
structure UserRow where
  id : String
  uuid : Option String := none
  email : Option String := none
  phone : Option String := none
  username : Option String := none
  nickname : Option String := none
  avatar : Option String := none
  status : Int := 1
  is_superuser : Bool := false
  is_staff : Bool := false
  subscription_tier : String := "free"
  settings : Option String := none
  synced_at : Option Int := none
  server_version : Int := 0
  created_at : Int
  updated_at : Int
  deriving Repr, DecidableEq

/-- Row of the `projects` table (columns in the order read by
`row_to_project`, plus the `cloud_id` column added in `init_schema`). -/
structure ProjectRow where
  id : String
  user_id : String
  name : String
  description : Option String := none
  industry : Option String := none
  sub_industries : Option String := none
  brand_name : Option String := none
  brand_tone : Option String := none
  brand_keywords : Option String := none
  topics : Option String := none
  keywords : Option String := none
  account_tags : Option String := none
  preferred_platforms : Option String := none
  content_style : Option String := none
  settings : Option String := none
  is_default : Bool := false
  is_deleted : Bool := false
  deleted_at : Option Int := none
  synced_at : Option Int := none
  server_version : Int := 0
  local_version : Int := 1
  sync_status : String
  created_at : Int
  updated_at : Int
  cloud_id : Option Int := none
  deriving Repr, DecidableEq

/-- Row of the `contents` table (columns in the order read by
`row_to_content`). -/
structure ContentRow where
  id : String
  user_id : String
  project_id : String
  title : Option String := none
  content_type : String
  status : String := "draft"
  text_content : Option String := none
  summary : Option String := none
  media_urls : Option String := none
  cover_url : Option String := none
  tags : Option String := none
  keywords : Option String := none
  word_count : Int := 0
  read_time_minutes : Int := 0
  ai_generated : Bool := false
  generation_params : Option String := none
  version : Int := 1
  parent_id : Option String := none
  is_deleted : Bool := false
  deleted_at : Option Int := none
  synced_at : Option Int := none
  server_version : Int := 0
  local_version : Int := 1
  sync_status : String
  created_at : Int
  updated_at : Int
  deriving Repr, DecidableEq

/-- Row of the `platform_accounts` table (columns as read by
`row_to_platform_account`). -/
structure PlatformAccountRow where
  id : String
  user_id : String
  project_id : String
  platform : String
  account_id : String
  account_name : Option String := none
  avatar_url : Option String := none
  is_active : Bool := true
  session_valid : Bool := false
  last_session_check : Option Int := none
  followers_count : Int := 0
  following_count : Int := 0
  posts_count : Int := 0
  metadata : Option String := none
  last_profile_sync_at : Option Int := none
  is_deleted : Bool := false
  deleted_at : Option Int := none
  synced_at : Option Int := none
  server_version : Int := 0
  local_version : Int := 1
  sync_status : String
  created_at : Int
  updated_at : Int
  deriving Repr, DecidableEq

/-- Row of the `publications` table. The first twenty columns are those
read by `row_to_publication`. Modelled from the spec: `schema.sql` is not
under `src/`; the spec's common entity shape (§3) gives every entity type
an `is_deleted`/`deleted_at` soft-delete marker, so the table row carries
them even though `row_to_publication` never reads them. -/
structure PublicationRow where
  id : String
  user_id : String
  content_id : String
  account_id : String
  platform : String
  status : String := "pending"
  adapted_content : Option String := none
  scheduled_at : Option Int := none
  published_at : Option Int := none
  platform_post_id : Option String := none
  platform_post_url : Option String := none
  error_message : Option String := none
  retry_count : Int := 0
  last_retry_at : Option Int := none
  synced_at : Option Int := none
  server_version : Int := 0
  local_version : Int := 1
  sync_status : String
  created_at : Int
  updated_at : Int
  is_deleted : Bool := false
  deleted_at : Option Int := none
  deriving Repr, DecidableEq

/-- The local database: one table per entity type, as created by
`schema.sql` and accessed through `Repository`. -/
structure DB where
  users : List UserRow := []
  projects : List ProjectRow := []
  contents : List ContentRow := []
  platform_accounts : List PlatformAccountRow := []
  publications : List PublicationRow := []
  deriving Repr, DecidableEq

/-- Argument record of `Repository::update_project` (the `UpdateProject`
model; its `Vec<String>` fields are serialized to JSON text before the SQL
statement runs, so they appear here as the serialized strings). -/
structure UpdateProject where
  name : Option String := none
  description : Option String := none
  industry : Option String := none
  sub_industries : Option String := none
  brand_name : Option String := none
  brand_tone : Option String := none
  brand_keywords : Option String := none
  topics : Option String := none
  keywords : Option String := none
  account_tags : Option String := none
  preferred_platforms : Option String := none
  content_style : Option String := none
  deriving Repr, DecidableEq

/-- Argument record of `Repository::create_project` (the `CreateProject`
model, list fields pre-serialized as in `UpdateProject`). -/
structure CreateProject where
  name : String
  description : Option String := none
  industry : Option String := none
  sub_industries : Option String := none
  brand_name : Option String := none
  brand_tone : Option String := none
  brand_keywords : Option String := none
  topics : Option String := none
  keywords : Option String := none
  deriving Repr, DecidableEq

/-- Argument record of `Repository::create_content` (the `CreateContent`
model, `tags` pre-serialized). -/
structure CreateContent where
  project_id : String
  title : Option String := none
  content_type : String
  text_content : Option String := none
  tags : Option String := none
  deriving Repr, DecidableEq

/-- `Repository::ensure_user_exists`: `INSERT OR IGNORE` of a placeholder
user row keyed by `user_id`. -/
def ensure_user_exists (user_id : String) (ts : Int) (db : DB) : DB :=
  if ∃ u ∈ db.users, u.id = user_id then db
  else
    { db with
      users := db.users ++
        [{ id := user_id, email := some "waiting_sync@local",
           username := some ("pending_" ++ user_id),
           nickname := some "同步中...", subscription_tier := "free",
           created_at := ts, updated_at := ts, status := 1 }] }

/-- `Repository::ensure_project_exists`: first ensures the user exists,
then `INSERT OR IGNORE` of a placeholder project row keyed by
`project_id`, with `sync_status = 'pending'`. -/
def ensure_project_exists (project_id user_id : String) (ts : Int) (db : DB) : DB :=
  let db1 := ensure_user_exists user_id ts db
  if ∃ p ∈ db1.projects, p.id = project_id then db1
  else
    { db1 with
      projects := db1.projects ++
        [{ id := project_id, user_id := user_id, name := "默认项目",
           sync_status := "pending", created_at := ts, updated_at := ts }] }

/-- `Repository::sync_user`: upsert of a remote user snapshot keyed by
`id`; on conflict the nullable payload fields are merged with
`COALESCE(excluded.x, x)` and `updated_at` is replaced, all other columns
keep their existing values. -/
def sync_user (user_id : String) (email username nickname avatar : Option String)
    (ts : Int) (users : List UserRow) : List UserRow :=
  if ∃ u ∈ users, u.id = user_id then
    users.map fun u =>
      if u.id = user_id then
        { u with
          email := coalesce email u.email,
          username := coalesce username u.username,
          nickname := coalesce nickname u.nickname,
          avatar := coalesce avatar u.avatar,
          updated_at := ts }
      else u
  else
    users ++
      [{ id := user_id, email := email, username := username,
         nickname := nickname, avatar := avatar, subscription_tier := "free",
         created_at := ts, updated_at := ts, status := 1 }]

/-- `Repository::sync_project`: upsert of a remote project snapshot keyed
by `id`; on conflict `name` is replaced, `description` and `cloud_id` are
coalesced, `sync_status` is set to `'synced'` and `updated_at` replaced;
all other columns (including `user_id`) keep their existing values. -/
def sync_project (project_id user_id name : String) (description : Option String)
    (cloud_id : Option Int) (ts : Int) (projects : List ProjectRow) : List ProjectRow :=
  if ∃ p ∈ projects, p.id = project_id then
    projects.map fun p =>
      if p.id = project_id then
        { p with
          name := name,
          description := coalesce description p.description,
          sync_status := "synced",
          updated_at := ts,
          cloud_id := coalesce cloud_id p.cloud_id }
      else p
  else
    projects ++
      [{ id := project_id, user_id := user_id, name := name,
         description := description, sync_status := "synced",
         created_at := ts, updated_at := ts, cloud_id := cloud_id }]

/-- `Repository::create_project`: insert a fresh project row (UUID passed
explicitly) with `sync_status = 'pending'`, then return
`get_project(id)`. -/
def create_project (id user_id : String) (data : CreateProject) (ts : Int)
    (projects : List ProjectRow) : Option ProjectRow × List ProjectRow :=
  let projects1 := projects ++
    [{ id := id, user_id := user_id, name := data.name,
       description := data.description, industry := data.industry,
       sub_industries := data.sub_industries, brand_name := data.brand_name,
       brand_tone := data.brand_tone, brand_keywords := data.brand_keywords,
       topics := data.topics, keywords := data.keywords,
       sync_status := "pending", created_at := ts, updated_at := ts }]
  (projects1.find? fun p => p.id = id ∧ p.is_deleted = false, projects1)

/-- `Repository::get_project`: first row with the given id and
`is_deleted = 0`. -/
def get_project (id : String) (projects : List ProjectRow) : Option ProjectRow :=
  projects.find? fun p => p.id = id ∧ p.is_deleted = false

/-- `Repository::update_project`: `UPDATE ... WHERE id = ?` with
`COALESCE` on every payload column, `sync_status = 'pending'` and
`local_version = local_version + 1`. -/
def update_project (id : String) (data : UpdateProject) (ts : Int)
    (projects : List ProjectRow) : List ProjectRow :=
  projects.map fun p =>
    if p.id = id then
      { p with
        name := (data.name).getD p.name,
        description := coalesce data.description p.description,
        industry := coalesce data.industry p.industry,
        sub_industries := coalesce data.sub_industries p.sub_industries,
        brand_name := coalesce data.brand_name p.brand_name,
        brand_tone := coalesce data.brand_tone p.brand_tone,
        brand_keywords := coalesce data.brand_keywords p.brand_keywords,
        topics := coalesce data.topics p.topics,
        keywords := coalesce data.keywords p.keywords,
        account_tags := coalesce data.account_tags p.account_tags,
        preferred_platforms := coalesce data.preferred_platforms p.preferred_platforms,
        content_style := coalesce data.content_style p.content_style,
        sync_status := "pending",
        local_version := p.local_version + 1,
        updated_at := ts }
    else p

/-- `Repository::delete_project`: soft delete, `UPDATE ... WHERE id = ?`
setting `is_deleted`, `deleted_at`, `sync_status = 'pending'` and bumping
`local_version`. -/
def delete_project (id : String) (ts : Int) (projects : List ProjectRow) :
    List ProjectRow :=
  projects.map fun p =>
    if p.id = id then
      { p with
        is_deleted := true, deleted_at := some ts,
        sync_status := "pending",
        local_version := p.local_version + 1,
        updated_at := ts }
    else p

/-- `Repository::create_content`: insert a fresh content row (UUID passed
explicitly) with `sync_status = 'pending'` and `word_count` computed from
the text (character count, 0 when absent), then return
`get_content(id)`. -/
def create_content (id user_id : String) (data : CreateContent) (ts : Int)
    (contents : List ContentRow) : Option ContentRow × List ContentRow :=
  let wc : Int := (data.text_content.map fun t => (t.length : Int)).getD 0
  let contents1 := contents ++
    [{ id := id, user_id := user_id, project_id := data.project_id,
       title := data.title, content_type := data.content_type,
       text_content := data.text_content, tags := data.tags,
       word_count := wc, sync_status := "pending",
       created_at := ts, updated_at := ts }]
  (contents1.find? fun c => c.id = id ∧ c.is_deleted = false, contents1)

/-- `Repository::get_content`: first row with the given id and
`is_deleted = 0`. -/
def get_content (id : String) (contents : List ContentRow) : Option ContentRow :=
  contents.find? fun c => c.id = id ∧ c.is_deleted = false

/-- `Repository::update_content`: `UPDATE ... WHERE id = ?` with
`COALESCE` on `title`, `text_content` and the recomputed `word_count`,
`sync_status = 'pending'` and `local_version = local_version + 1`. -/
def update_content (id : String) (title text_content : Option String) (ts : Int)
    (contents : List ContentRow) : List ContentRow :=
  contents.map fun c =>
    if c.id = id then
      { c with
        title := coalesce title c.title,
        text_content := coalesce text_content c.text_content,
        word_count := (text_content.map fun t => (t.length : Int)).getD c.word_count,
        sync_status := "pending",
        local_version := c.local_version + 1,
        updated_at := ts }
    else c

/-- `Repository::delete_content`: soft delete, same shape as
`delete_project`. -/
def delete_content (id : String) (ts : Int) (contents : List ContentRow) :
    List ContentRow :=
  contents.map fun c =>
    if c.id = id then
      { c with
        is_deleted := true, deleted_at := some ts,
        sync_status := "pending",
        local_version := c.local_version + 1,
        updated_at := ts }
    else c

/-- Conflict target of the `platform_accounts` upsert: the secondary
unique index `(project_id, platform, account_id)`. -/
def accountConflict (project_id platform account_id : String)
    (r : PlatformAccountRow) : Prop :=
  r.project_id = project_id ∧ r.platform = platform ∧ r.account_id = account_id

instance (project_id platform account_id : String) (r : PlatformAccountRow) :
    Decidable (accountConflict project_id platform account_id r) := by
  unfold accountConflict
  infer_instance

/-- `Repository::get_platform_account`: first row with the given id and
`is_deleted = 0`. -/
def get_platform_account (id : String) (accounts : List PlatformAccountRow) :
    Option PlatformAccountRow :=
  accounts.find? fun r => r.id = id ∧ r.is_deleted = false

/-- `Repository::create_platform_account`: insert with a fresh UUID
(passed explicitly); on conflict with the unique index
`(project_id, platform, account_id)` the existing row is updated —
`account_name` coalesced, `sync_status = 'pending'`, `updated_at`
replaced, `local_version` untouched — and `RETURNING id` yields the
existing row's id; finally the function returns
`get_platform_account(actual_id)`. -/
def create_platform_account (gen_id user_id project_id platform account_id : String)
    (account_name : Option String) (ts : Int)
    (accounts : List PlatformAccountRow) :
    Option PlatformAccountRow × List PlatformAccountRow :=
  if ∃ r ∈ accounts, accountConflict project_id platform account_id r then
    let accounts1 := accounts.map fun r =>
      if accountConflict project_id platform account_id r then
        { r with
          account_name := coalesce account_name r.account_name,
          sync_status := "pending",
          updated_at := ts }
      else r
    let actual_id :=
      (accounts.find? fun r => accountConflict project_id platform account_id r).map
        fun r => r.id
    (actual_id.bind fun i => get_platform_account i accounts1, accounts1)
  else
    let accounts1 := accounts ++
      [{ id := gen_id, user_id := user_id, project_id := project_id,
         platform := platform, account_id := account_id,
         account_name := account_name, sync_status := "pending",
         created_at := ts, updated_at := ts }]
    (get_platform_account gen_id accounts1, accounts1)

/-- `Repository::create_publication`: insert a fresh publication row with
`sync_status = 'pending'`, then return `get_publication(id)`. -/
def create_publication (id user_id content_id account_id platform : String)
    (scheduled_at : Option Int) (ts : Int)
    (publications : List PublicationRow) :
    Option PublicationRow × List PublicationRow :=
  let publications1 := publications ++
    [{ id := id, user_id := user_id, content_id := content_id,
       account_id := account_id, platform := platform,
       scheduled_at := scheduled_at, sync_status := "pending",
       created_at := ts, updated_at := ts }]
  (publications1.find? fun q => q.id = id, publications1)

/-- `Repository::get_publication`: first row with the given id. The SQL
query `SELECT * FROM publications WHERE id = ?1` carries no
`is_deleted` predicate. -/
def get_publication (id : String) (publications : List PublicationRow) :
    Option PublicationRow :=
  publications.find? fun q => q.id = id

/-- `Repository::update_publication_status`: `UPDATE ... WHERE id = ?`
setting `status` and `error_message` outright, `sync_status = 'pending'`
and `local_version = local_version + 1`. -/
def update_publication_status (id status : String) (error_message : Option String)
    (ts : Int) (publications : List PublicationRow) : List PublicationRow :=
  publications.map fun q =>
    if q.id = id then
      { q with
        status := status,
        error_message := error_message,
        sync_status := "pending",
        local_version := q.local_version + 1,
        updated_at := ts }
    else q

/-- Remote platform-account record as deserialized by the account
provider (`ApiAccount` in `sync/providers/account.rs`), with
`metadata_info` already rendered to a string. -/
structure ApiAccount where
  id : String
  user_id : String
  project_id : String
  platform : String
  account_id : String
  account_name : Option String := none
  avatar_url : Option String := none
  followers_count : Option Int := none
  following_count : Option Int := none
  posts_count : Option Int := none
  is_active : Option Bool := none
  session_valid : Option Bool := none
  metadata_info : Option String := none
  is_deleted : Bool := false
  server_version : Int := 0
  deriving Repr, DecidableEq

/-- Modelled from the spec: the repository method
`sync_platform_account` called by the account provider's pull is not
under `src/` (only its caller is). Per the spec's `upsertFromRemote`
(§4.1), the remote record is upserted keyed by its unified `id`: on
conflict the nullable fields are coalesced and the rest overwritten, the
row gets `sync_status = 'synced'`, the supplied `server_version` and
`synced_at = now`; an insert is subject to the foreign-key constraint
that the parent project row exists locally (`PRAGMA foreign_keys=ON`),
reported as an error when violated. -/
def sync_platform_account (id user_id project_id platform account_id : String)
    (account_name avatar_url : Option String)
    (followers following posts : Int) (is_active session_valid : Bool)
    (metadata : Option String) (is_deleted : Bool) (server_version : Int)
    (ts : Int) (db : DB) : Except String DB :=
  if ∃ r ∈ db.platform_accounts, r.id = id then
    Except.ok
      { db with
        platform_accounts := db.platform_accounts.map fun r =>
          if r.id = id then
            { r with
              user_id := user_id, project_id := project_id,
              platform := platform, account_id := account_id,
              account_name := coalesce account_name r.account_name,
              avatar_url := coalesce avatar_url r.avatar_url,
              followers_count := followers, following_count := following,
              posts_count := posts, is_active := is_active,
              session_valid := session_valid,
              metadata := coalesce metadata r.metadata,
              is_deleted := is_deleted,
              sync_status := "synced", server_version := server_version,
              synced_at := some ts, updated_at := ts }
          else r }
  else if ∃ p ∈ db.projects, p.id = project_id then
    Except.ok
      { db with
        platform_accounts := db.platform_accounts ++
          [{ id := id, user_id := user_id, project_id := project_id,
             platform := platform, account_id := account_id,
             account_name := account_name, avatar_url := avatar_url,
             followers_count := followers, following_count := following,
             posts_count := posts, is_active := is_active,
             session_valid := session_valid, metadata := metadata,
             is_deleted := is_deleted, sync_status := "synced",
             server_version := server_version, synced_at := some ts,
             created_at := ts, updated_at := ts }] }
  else Except.error "FOREIGN KEY constraint failed"

/-- Processing of one fetched record inside `AccountProvider::pull`
(`sync/providers/account.rs`): ensure the requesting user exists, ensure
the record's project exists (placeholder provisioning), then upsert the
account via `sync_platform_account`, with the source's `unwrap_or`
defaults applied to the optional counters and flags. -/
def account_pull_record (acc : ApiAccount) (user_id : String) (ts : Int)
    (db : DB) : Except String DB :=
  let db1 := ensure_user_exists user_id ts db
  let db2 := ensure_project_exists acc.project_id user_id ts db1
  sync_platform_account acc.id user_id acc.project_id acc.platform
    acc.account_id acc.account_name acc.avatar_url
    (acc.followers_count.getD 0) (acc.following_count.getD 0)
    (acc.posts_count.getD 0) (acc.is_active.getD true)
    (acc.session_valid.getD false) acc.metadata_info acc.is_deleted
    acc.server_version ts db2

/-- Phase of a provider within a pass. -/
inductive Phase where
  | pull
  | push
  deriving Repr, DecidableEq

/-- One provider phase executed during a pass, with the error it
returned (if any). The engine itself only logs these; the trace exists in
the model to state which phases ran and in which order. -/
structure SyncEvent where
  provider : String
  phase : Phase
  err : Option String
  deriving Repr, DecidableEq

/-- `SyncStatus` from `sync/engine.rs`. -/
structure SyncStatus where
  is_syncing : Bool
  last_sync_time : Option Int
  last_error : Option String
  deriving Repr, DecidableEq

/-- A registered sync provider (the `SyncProvider` trait object): a name
and the pull/push operations, each transforming the shared store and
returning the error, if any, that the provider reported. -/
structure SyncProvider (σ : Type) where
  name : String
  pull : σ → σ × Option String
  push : σ → σ × Option String

/-- Recording of a pull error into the pass's running result
(`final_result = Err(err_msg)` — unconditional overwrite). -/
def recordPullErr (pname : String) (fin pe : Option String) : Option String :=
  match pe with
  | some e => some ("Pull failed for " ++ pname ++ ": " ++ e)
  | none => fin

/-- Recording of a push error into the pass's running result
(`if final_result.is_ok() { final_result = Err(err_msg) }`). -/
def recordPushErr (pname : String) (fin pe : Option String) : Option String :=
  match pe with
  | some e => if fin = none then some ("Push failed for " ++ pname ++ ": " ++ e) else fin
  | none => fin

theorem recordPullErr_eq_none (pname : String) (fin pe : Option String) :
    recordPullErr pname fin pe = none ↔ (fin = none ∧ pe = none) := by
  cases pe <;> simp [recordPullErr]

theorem recordPushErr_eq_none (pname : String) (fin pe : Option String) :
    recordPushErr pname fin pe = none ↔ (fin = none ∧ pe = none) := by
  cases pe with
  | none => simp [recordPushErr]
  | some e =>
    cases fin <;> simp [recordPushErr]

/-- The provider loop of `SyncEngine::start_sync`: for each provider in
registration order run `pull` then `push`, record errors into the running
result without ever breaking out of the loop, and thread the store
through every phase. Also returns the trace of executed phases. -/
def syncLoop {σ : Type} :
    List (SyncProvider σ) → σ → Option String → σ × Option String × List SyncEvent
  | [], s, fin => (s, fin, [])
  | p :: ps, s, fin =>
    let pr := p.pull s
    let fin1 := recordPullErr p.name fin pr.2
    let qr := p.push pr.1
    let fin2 := recordPushErr p.name fin1 qr.2
    let rest := syncLoop ps qr.1 fin2
    (rest.1, rest.2.1,
      ⟨p.name, Phase.pull, pr.2⟩ :: ⟨p.name, Phase.push, qr.2⟩ :: rest.2.2)

/-- Outcome of `SyncEngine::start_sync`: the engine status after the
call, the store after the call, the trace of provider phases that ran,
and the returned result (`none` = `Ok(())`). -/
structure SyncRunOutcome (σ : Type) where
  status : SyncStatus
  store : σ
  trace : List SyncEvent
  result : Option String

/-- `SyncEngine::start_sync`: single-flight guard (return `Ok` at once if
a pass is running), else mark syncing and clear the error, run every
provider's pull and push in order, then clear the syncing flag and record
either the success time or the aggregated error. -/
def start_sync {σ : Type} (providers : List (SyncProvider σ)) (st : SyncStatus)
    (store : σ) (ts : Int) : SyncRunOutcome σ :=
  if st.is_syncing then ⟨st, store, [], none⟩
  else
    let st1 := { st with is_syncing := true, last_error := none }
    let r := syncLoop providers store none
    let st2 :=
      if r.2.1 = none then
        { st1 with is_syncing := false, last_sync_time := some ts }
      else
        { st1 with is_syncing := false, last_error := r.2.1 }
    ⟨st2, r.1, r.2.2, r.2.1⟩

theorem syncLoop_trace_shape {σ : Type} (ps : List (SyncProvider σ)) (s : σ)
    (fin : Option String) :
    ((syncLoop ps s fin).2.2).map (fun e => (e.provider, e.phase)) =
      ps.flatMap fun p => [(p.name, Phase.pull), (p.name, Phase.push)] := by
  induction ps generalizing s fin with
  | nil => simp [syncLoop]
  | cons p ps ih => simp [syncLoop, ih]

theorem syncLoop_result_none_iff {σ : Type} (ps : List (SyncProvider σ)) (s : σ)
    (fin : Option String) :
    (syncLoop ps s fin).2.1 = none ↔
      (fin = none ∧ ∀ e ∈ (syncLoop ps s fin).2.2, e.err = none) := by
  induction ps generalizing s fin with
  | nil => simp [syncLoop]
  | cons p ps ih =>
    simp only [syncLoop, List.mem_cons, forall_eq_or_imp]
    rw [ih, recordPushErr_eq_none, recordPullErr_eq_none]
    tauto

/-- C4: if `start_sync` is called while a pass is already running
(`status.is_syncing` is true), it returns success immediately (`Ok`,
modelled as `none`), runs no provider pull or push (empty trace, store
untouched), and leaves the engine status — `is_syncing`,
`last_sync_time`, `last_error` — unchanged, so at most one pass executes
at a time. -/
theorem c4_single_flight_guard {σ : Type} (providers : List (SyncProvider σ))
    (st : SyncStatus) (store : σ) (ts : Int) (h : st.is_syncing = true) :
    start_sync providers st store ts = ⟨st, store, [], none⟩ := by
  simp [start_sync, h]

/-- Witness for C4 at a concrete engine state with one registered
provider. -/
theorem c4_witness :
    start_sync [⟨"Project", fun s => (s + 1, none), fun s => (s, some "x")⟩]
        ⟨true, some 3, some "old"⟩ (7 : Nat) 9 =
      ⟨⟨true, some 3, some "old"⟩, 7, [], none⟩ :=
  c4_single_flight_guard _ _ _ _ rfl

/-- C5: when a pass actually starts, every registered provider's pull and
push both execute, in registration order, regardless of any errors
earlier phases returned (no early abort), and the pass result is `Ok`
exactly when no phase reported an error — so any phase error is recorded
in the pass result. -/
theorem c5_no_early_abort {σ : Type} (providers : List (SyncProvider σ))
    (st : SyncStatus) (store : σ) (ts : Int) (h : st.is_syncing = false) :
    ((start_sync providers st store ts).trace).map (fun e => (e.provider, e.phase)) =
        (providers.flatMap fun p => [(p.name, Phase.pull), (p.name, Phase.push)])
      ∧ ((start_sync providers st store ts).result = none ↔
          ∀ e ∈ (start_sync providers st store ts).trace, e.err = none) := by
  constructor
  · simp [start_sync, h, syncLoop_trace_shape]
  · have hiff := syncLoop_result_none_iff providers store none
    simpa [start_sync, h] using hiff

/-- Witness for C5: two concrete providers, the first of which fails its
pull; both phases of both providers still run and the error surfaces in
the result. -/
theorem c5_witness :
    ((start_sync
        [⟨"A", fun s => (s + 1, some "boom"), fun s => (s + 2, none)⟩,
         ⟨"B", fun s => (s * 2, none), fun s => (s, none)⟩]
        ⟨false, none, none⟩ (1 : Nat) 5).trace).map
        (fun e => (e.provider, e.phase)) =
      ([⟨"A", fun s => (s + 1, some "boom"), fun s => (s + 2, none)⟩,
        ⟨"B", fun s => (s * 2, none), fun s => (s, none)⟩] :
          List (SyncProvider Nat)).flatMap
        (fun p => [(p.name, Phase.pull), (p.name, Phase.push)])
    ∧ ((start_sync
        [⟨"A", fun s => (s + 1, some "boom"), fun s => (s + 2, none)⟩,
         ⟨"B", fun s => (s * 2, none), fun s => (s, none)⟩]
        ⟨false, none, none⟩ (1 : Nat) 5).result = none ↔
        ∀ e ∈ (start_sync
          [⟨"A", fun s => (s + 1, some "boom"), fun s => (s + 2, none)⟩,
           ⟨"B", fun s => (s * 2, none), fun s => (s, none)⟩]
          ⟨false, none, none⟩ (1 : Nat) 5).trace, e.err = none) :=
  c5_no_early_abort _ _ _ _ rfl

theorem coalesce_self {α : Type} (a : Option α) : coalesce a a = a := by
  cases a <;> simp

theorem find?_append_left_none {α : Type} (l1 l2 : List α) (p : α → Bool)
    (h : ∀ x ∈ l1, ¬ p x) : (l1 ++ l2).find? p = l2.find? p := by
  induction l1 with
  | nil => simp
  | cons a l ih =>
    rw [List.cons_append, List.find?_cons_of_neg]
    · exact ih fun x hx => h x (List.mem_cons_of_mem a hx)
    · exact h a (List.mem_cons_self a l)

theorem sync_project_insert (projects : List ProjectRow)
    (pid uid nm : String) (d : Option String) (cid : Option Int) (ts : Int)
    (h : ∀ r ∈ projects, r.id ≠ pid) :
    sync_project pid uid nm d cid ts projects = projects ++
      [{ id := pid, user_id := uid, name := nm, description := d,
         sync_status := "synced", created_at := ts, updated_at := ts,
         cloud_id := cid }] := by
  unfold sync_project
  rw [if_neg]
  rintro ⟨p, hp, hpe⟩
  exact h p hp hpe

theorem sync_project_update (projects : List ProjectRow)
    (pid uid nm : String) (d : Option String) (cid : Option Int) (ts : Int)
    (h : ∃ p ∈ projects, p.id = pid) :
    sync_project pid uid nm d cid ts projects = projects.map fun p =>
      if p.id = pid then
        { p with
          name := nm,
          description := coalesce d p.description,
          sync_status := "synced",
          updated_at := ts,
          cloud_id := coalesce cid p.cloud_id }
      else p := by
  unfold sync_project
  rw [if_pos h]

/-- C1 counterexample: a project row that is currently `Pending` (an
unpushed local edit named "Draft") is merged over by `sync_project` — its
`name` is replaced by the remote snapshot and its `sync_status` flips to
`'synced'` — contradicting the claim that the remote-driven merge is
applied only to rows that are not Pending. -/
theorem c1_counterexample :
    (sync_project "p1" "u1" "Remote" none none 7
        [{ id := "p1", user_id := "u1", name := "Draft",
           sync_status := "pending", created_at := 0, updated_at := 0 }]).map
        (fun p => (p.name, p.sync_status)) = [("Remote", "synced")] := by
  decide

/-- C1 (amended): `sync_project` applies the remote-driven merge to the
matching row unconditionally — even when that row's `sync_status` is
`'pending'`, its `name` is overwritten, `description` and `cloud_id` are
coalesced with the incoming values, and `sync_status` is set to
`'synced'` (the local edit is silently overwritten; only `local_version`
is left as it was). -/
theorem c1_merge_applies_to_pending (projects : List ProjectRow)
    (pid uid nm : String) (d : Option String) (cid : Option Int) (ts : Int)
    (r : ProjectRow) (hr : r ∈ projects) (hid : r.id = pid)
    (_hp : r.sync_status = "pending") :
    ∃ r' ∈ sync_project pid uid nm d cid ts projects,
      r'.name = nm ∧ r'.sync_status = "synced" ∧
      r'.description = coalesce d r.description ∧
      r'.cloud_id = coalesce cid r.cloud_id ∧
      r'.local_version = r.local_version := by
  rw [sync_project_update projects pid uid nm d cid ts ⟨r, hr, hid⟩]
  refine ⟨_, List.mem_map_of_mem _ hr, ?_⟩
  rw [if_pos hid]
  exact ⟨rfl, rfl, rfl, rfl, rfl⟩

/-- Witness for C1 (amended) at a concrete single-row table whose row is
Pending. -/
theorem c1_witness :
    ∃ r' ∈ sync_project "p1" "u9" "Remote" none (some 4) 7
        [{ id := "p1", user_id := "u1", name := "Draft",
           description := some "x", sync_status := "pending",
           created_at := 0, updated_at := 0 }],
      r'.name = "Remote" ∧ r'.sync_status = "synced" ∧
      r'.description = coalesce none (some "x") ∧
      r'.cloud_id = coalesce (some 4) none ∧
      r'.local_version = (1 : Int) :=
  c1_merge_applies_to_pending
    [{ id := "p1", user_id := "u1", name := "Draft", description := some "x",
       sync_status := "pending", created_at := 0, updated_at := 0 }]
    "p1" "u9" "Remote" none (some 4) 7
    { id := "p1", user_id := "u1", name := "Draft", description := some "x",
      sync_status := "pending", created_at := 0, updated_at := 0 }
    (List.mem_singleton_self _) rfl rfl

/-- C2 counterexample: hitting the `(project_id, platform, account_id)`
conflict branch of `create_platform_account` on an existing row with
`local_version = 1` performs a local mutation (it sets
`sync_status = 'pending'` and a new `updated_at`) yet leaves
`local_version` at 1 instead of incrementing it to 2. -/
theorem c2_counterexample :
    ((create_platform_account "g2" "u1" "p1" "wx" "a1" (some "n") 9
        [{ id := "g1", user_id := "u1", project_id := "p1", platform := "wx",
           account_id := "a1", account_name := some "n",
           sync_status := "pending", created_at := 0, updated_at := 0 }]).2).map
        (fun r => (r.local_version, r.sync_status, r.updated_at)) =
      [((1 : Int), "pending", (9 : Int))] := by
  decide

/-- C2 (amended): `update_project`, `delete_project`, `update_content`,
`delete_content` and `update_publication_status` each increment the
matching row's `local_version` by exactly 1 and set its `sync_status` to
`'pending'`; the conflict branch of `create_platform_account`, however,
sets `sync_status = 'pending'` but leaves `local_version` unchanged. -/
theorem c2_local_mutations
    (sp : List ProjectRow) (rp : ProjectRow) (pid : String) (dataP : UpdateProject)
    (sc : List ContentRow) (rc : ContentRow) (cid : String)
    (titleArg textArg : Option String)
    (spub : List PublicationRow) (rq : PublicationRow) (qid stat : String)
    (emsg : Option String)
    (sa : List PlatformAccountRow) (ra : PlatformAccountRow)
    (gid auid apid apf aacc : String) (aname : Option String)
    (ts : Int)
    (hp : rp ∈ sp) (hpid : rp.id = pid)
    (hc : rc ∈ sc) (hcid : rc.id = cid)
    (hq : rq ∈ spub) (hqid : rq.id = qid)
    (ha : ra ∈ sa) (haconf : accountConflict apid apf aacc ra) :
    (∃ r' ∈ update_project pid dataP ts sp,
        r'.local_version = rp.local_version + 1 ∧ r'.sync_status = "pending")
    ∧ (∃ r' ∈ delete_project pid ts sp,
        r'.local_version = rp.local_version + 1 ∧ r'.sync_status = "pending")
    ∧ (∃ r' ∈ update_content cid titleArg textArg ts sc,
        r'.local_version = rc.local_version + 1 ∧ r'.sync_status = "pending")
    ∧ (∃ r' ∈ delete_content cid ts sc,
        r'.local_version = rc.local_version + 1 ∧ r'.sync_status = "pending")
    ∧ (∃ r' ∈ update_publication_status qid stat emsg ts spub,
        r'.local_version = rq.local_version + 1 ∧ r'.sync_status = "pending")
    ∧ (∃ r' ∈ (create_platform_account gid auid apid apf aacc aname ts sa).2,
        r'.local_version = ra.local_version ∧ r'.sync_status = "pending") := by
  refine ⟨⟨_, List.mem_map_of_mem _ hp, ?_⟩, ⟨_, List.mem_map_of_mem _ hp, ?_⟩,
    ⟨_, List.mem_map_of_mem _ hc, ?_⟩, ⟨_, List.mem_map_of_mem _ hc, ?_⟩,
    ⟨_, List.mem_map_of_mem _ hq, ?_⟩, ?_⟩
  · rw [if_pos hpid]; exact ⟨rfl, rfl⟩
  · rw [if_pos hpid]; exact ⟨rfl, rfl⟩
  · rw [if_pos hcid]; exact ⟨rfl, rfl⟩
  · rw [if_pos hcid]; exact ⟨rfl, rfl⟩
  · rw [if_pos hqid]; exact ⟨rfl, rfl⟩
  · unfold create_platform_account
    rw [if_pos ⟨ra, ha, haconf⟩]
    refine ⟨_, List.mem_map_of_mem _ ha, ?_⟩
    rw [if_pos haconf]
    exact ⟨rfl, rfl⟩

/-- Witness for C2 (amended) on concrete singleton tables. -/
theorem c2_witness :
    (∃ r' ∈ update_project "p1" {} 9
        [{ id := "p1", user_id := "u1", name := "N", sync_status := "synced",
           created_at := 0, updated_at := 0 }],
        r'.local_version = (1 : Int) + 1 ∧ r'.sync_status = "pending")
    ∧ (∃ r' ∈ delete_project "p1" 9
        [{ id := "p1", user_id := "u1", name := "N", sync_status := "synced",
           created_at := 0, updated_at := 0 }],
        r'.local_version = (1 : Int) + 1 ∧ r'.sync_status = "pending")
    ∧ (∃ r' ∈ update_content "c1" none none 9
        [{ id := "c1", user_id := "u1", project_id := "p1",
           content_type := "article", sync_status := "synced",
           created_at := 0, updated_at := 0 }],
        r'.local_version = (1 : Int) + 1 ∧ r'.sync_status = "pending")
    ∧ (∃ r' ∈ delete_content "c1" 9
        [{ id := "c1", user_id := "u1", project_id := "p1",
           content_type := "article", sync_status := "synced",
           created_at := 0, updated_at := 0 }],
        r'.local_version = (1 : Int) + 1 ∧ r'.sync_status = "pending")
    ∧ (∃ r' ∈ update_publication_status "q1" "done" none 9
        [{ id := "q1", user_id := "u1", content_id := "c1", account_id := "a1",
           platform := "wx", sync_status := "synced",
           created_at := 0, updated_at := 0 }],
        r'.local_version = (1 : Int) + 1 ∧ r'.sync_status = "pending")
    ∧ (∃ r' ∈ (create_platform_account "g2" "u1" "p1" "wx" "a1" none 9
        [{ id := "g1", user_id := "u1", project_id := "p1", platform := "wx",
           account_id := "a1", sync_status := "pending",
           created_at := 0, updated_at := 0 }]).2,
        r'.local_version = (1 : Int) ∧ r'.sync_status = "pending") :=
  c2_local_mutations
    [{ id := "p1", user_id := "u1", name := "N", sync_status := "synced",
       created_at := 0, updated_at := 0 }]
    { id := "p1", user_id := "u1", name := "N", sync_status := "synced",
      created_at := 0, updated_at := 0 }
    "p1" {}
    [{ id := "c1", user_id := "u1", project_id := "p1",
       content_type := "article", sync_status := "synced",
       created_at := 0, updated_at := 0 }]
    { id := "c1", user_id := "u1", project_id := "p1",
      content_type := "article", sync_status := "synced",
      created_at := 0, updated_at := 0 }
    "c1" none none
    [{ id := "q1", user_id := "u1", content_id := "c1", account_id := "a1",
       platform := "wx", sync_status := "synced",
       created_at := 0, updated_at := 0 }]
    { id := "q1", user_id := "u1", content_id := "c1", account_id := "a1",
      platform := "wx", sync_status := "synced",
      created_at := 0, updated_at := 0 }
    "q1" "done" none
    [{ id := "g1", user_id := "u1", project_id := "p1", platform := "wx",
       account_id := "a1", sync_status := "pending",
       created_at := 0, updated_at := 0 }]
    { id := "g1", user_id := "u1", project_id := "p1", platform := "wx",
      account_id := "a1", sync_status := "pending",
      created_at := 0, updated_at := 0 }
    "g2" "u1" "p1" "wx" "a1" none 9
    (List.mem_singleton_self _) rfl
    (List.mem_singleton_self _) rfl
    (List.mem_singleton_self _) rfl
    (List.mem_singleton_self _) ⟨rfl, rfl, rfl⟩

/-- C3: a locally created project or content row, looked up immediately
after creation (the value the create function returns), has
`local_version = 1` and `sync_status = 'pending'`. The generated UUID is
assumed fresh, as `uuid::Uuid::new_v4` provides. -/
theorem c3_created_rows
    (sp : List ProjectRow) (sc : List ContentRow)
    (idP idC uidP uidC : String) (dataP : CreateProject) (dataC : CreateContent)
    (ts1 ts2 : Int)
    (hfp : ∀ r ∈ sp, r.id ≠ idP) (hfc : ∀ c ∈ sc, c.id ≠ idC) :
    (∃ p, (create_project idP uidP dataP ts1 sp).1 = some p ∧
        p.local_version = 1 ∧ p.sync_status = "pending")
    ∧ ∃ c, (create_content idC uidC dataC ts2 sc).1 = some c ∧
        c.local_version = 1 ∧ c.sync_status = "pending" := by
  constructor
  · have h1 : (create_project idP uidP dataP ts1 sp).1 =
        some { id := idP, user_id := uidP, name := dataP.name,
               description := dataP.description, industry := dataP.industry,
               sub_industries := dataP.sub_industries,
               brand_name := dataP.brand_name, brand_tone := dataP.brand_tone,
               brand_keywords := dataP.brand_keywords, topics := dataP.topics,
               keywords := dataP.keywords, sync_status := "pending",
               created_at := ts1, updated_at := ts1 } := by
      simp only [create_project]
      rw [find?_append_left_none _ _ _ fun x hx => by simp [hfp x hx]]
      rw [List.find?_cons_of_pos _ (by simp)]
    exact ⟨_, h1, rfl, rfl⟩
  · have h2 : (create_content idC uidC dataC ts2 sc).1 =
        some { id := idC, user_id := uidC, project_id := dataC.project_id,
               title := dataC.title, content_type := dataC.content_type,
               text_content := dataC.text_content, tags := dataC.tags,
               word_count := (dataC.text_content.map fun t => (t.length : Int)).getD 0,
               sync_status := "pending", created_at := ts2,
               updated_at := ts2 } := by
      simp only [create_content]
      rw [find?_append_left_none _ _ _ fun x hx => by simp [hfc x hx]]
      rw [List.find?_cons_of_pos _ (by simp)]
    exact ⟨_, h2, rfl, rfl⟩

/-- Witness for C3: creation into empty tables. -/
theorem c3_witness :
    (∃ p, (create_project "p1" "u1" { name := "N" } 5 []).1 = some p ∧
        p.local_version = 1 ∧ p.sync_status = "pending")
    ∧ ∃ c, (create_content "c1" "u1"
        { project_id := "p1", content_type := "article" } 5 []).1 = some c ∧
        c.local_version = 1 ∧ c.sync_status = "pending" :=
  c3_created_rows [] [] "p1" "c1" "u1" "u1" { name := "N" }
    { project_id := "p1", content_type := "article" } 5 5
    (by simp) (by simp)

theorem ensure_user_exists_projects (uid : String) (ts : Int) (db : DB) :
    (ensure_user_exists uid ts db).projects = db.projects := by
  unfold ensure_user_exists
  split <;> rfl

theorem ensure_user_exists_accounts (uid : String) (ts : Int) (db : DB) :
    (ensure_user_exists uid ts db).platform_accounts = db.platform_accounts := by
  unfold ensure_user_exists
  split <;> rfl

theorem ensure_user_exists_has_user (uid : String) (ts : Int) (db : DB) :
    ∃ u ∈ (ensure_user_exists uid ts db).users, u.id = uid := by
  unfold ensure_user_exists
  by_cases hc : ∃ u ∈ db.users, u.id = uid
  · rw [if_pos hc]; exact hc
  · rw [if_neg hc]
    exact ⟨_, List.mem_append_right _ (List.mem_singleton_self _), rfl⟩

theorem ensure_project_exists_users (pid uid : String) (ts : Int) (db : DB) :
    (ensure_project_exists pid uid ts db).users =
      (ensure_user_exists uid ts db).users := by
  unfold ensure_project_exists
  dsimp only
  split <;> rfl

theorem ensure_project_exists_accounts (pid uid : String) (ts : Int) (db : DB) :
    (ensure_project_exists pid uid ts db).platform_accounts =
      db.platform_accounts := by
  unfold ensure_project_exists
  dsimp only
  split
  · exact ensure_user_exists_accounts uid ts db
  · exact ensure_user_exists_accounts uid ts db

theorem ensure_project_exists_placeholder (pid uid : String) (ts : Int) (db : DB)
    (h : ∀ p ∈ db.projects, p.id ≠ pid) :
    (ensure_project_exists pid uid ts db).projects =
      db.projects ++
        [{ id := pid, user_id := uid, name := "默认项目",
           sync_status := "pending", created_at := ts, updated_at := ts }] := by
  have hpr := ensure_user_exists_projects uid ts db
  unfold ensure_project_exists
  rw [if_neg]
  · simp [hpr]
  · rintro ⟨p, hp, he⟩
    rw [hpr] at hp
    exact h p hp he

/-- C6: pulling a `PlatformAccount` record whose project does not yet
exist locally succeeds rather than failing the foreign-key constraint: a
placeholder project row with `sync_status = 'pending'` is provisioned
under the record's `project_id` (and transitively a user row under the
requesting user id) before the account itself is upserted. -/
theorem c6_placeholder_provisioning (db : DB) (acc : ApiAccount)
    (uid : String) (ts : Int)
    (hnop : ∀ p ∈ db.projects, p.id ≠ acc.project_id) :
    ∃ db', account_pull_record acc uid ts db = Except.ok db' ∧
      (∃ p ∈ db'.projects, p.id = acc.project_id ∧ p.sync_status = "pending") ∧
      (∃ u ∈ db'.users, u.id = uid) ∧
      (∃ a ∈ db'.platform_accounts, a.id = acc.id ∧ a.sync_status = "synced") := by
  have hnop1 : ∀ p ∈ (ensure_user_exists uid ts db).projects, p.id ≠ acc.project_id := by
    rw [ensure_user_exists_projects]; exact hnop
  have hpj2 := ensure_project_exists_placeholder acc.project_id uid ts
    (ensure_user_exists uid ts db) hnop1
  have hph : ∃ p ∈ (ensure_project_exists acc.project_id uid ts
      (ensure_user_exists uid ts db)).projects,
      p.id = acc.project_id ∧ p.sync_status = "pending" := by
    rw [hpj2]
    exact ⟨_, List.mem_append_right _ (List.mem_singleton_self _), rfl, rfl⟩
  have husers : ∃ u ∈ (ensure_project_exists acc.project_id uid ts
      (ensure_user_exists uid ts db)).users, u.id = uid := by
    rw [ensure_project_exists_users]
    exact ensure_user_exists_has_user uid ts (ensure_user_exists uid ts db)
  unfold account_pull_record
  unfold sync_platform_account
  by_cases hacc : ∃ r ∈ (ensure_project_exists acc.project_id uid ts
      (ensure_user_exists uid ts db)).platform_accounts, r.id = acc.id
  · rw [if_pos hacc]
    obtain ⟨r, hr, hrid⟩ := hacc
    refine ⟨_, rfl, hph, husers, ?_⟩
    refine ⟨_, List.mem_map_of_mem _ hr, ?_⟩
    rw [if_pos hrid]
    exact ⟨hrid, rfl⟩
  · rw [if_neg hacc, if_pos]
    · refine ⟨_, rfl, hph, husers, ?_⟩
      exact ⟨_, List.mem_append_right _ (List.mem_singleton_self _), rfl, rfl⟩
    · obtain ⟨p, hp, hpe⟩ := hph
      exact ⟨p, hp, hpe.1⟩

/-- Witness for C6: pulling an account into an empty local database. -/
theorem c6_witness :
    ∃ db', account_pull_record
        { id := "acc1", user_id := "u1", project_id := "p1",
          platform := "wx", account_id := "wx-77", server_version := 4 }
        "u1" 9 {} = Except.ok db' ∧
      (∃ p ∈ db'.projects, p.id = "p1" ∧ p.sync_status = "pending") ∧
      (∃ u ∈ db'.users, u.id = "u1") ∧
      (∃ a ∈ db'.platform_accounts, a.id = "acc1" ∧ a.sync_status = "synced") :=
  c6_placeholder_provisioning {}
    { id := "acc1", user_id := "u1", project_id := "p1",
      platform := "wx", account_id := "wx-77", server_version := 4 }
    "u1" 9 (by simp)

/-- C7 counterexample: the remote-driven upsert does not apply "non-null
incoming always overwrites" to every field of the result — `sync_project`
onto an existing row receives the non-null incoming `user_id = "u2"` yet
keeps the local row's `user_id = "u1"` (the conflict update never touches
`user_id`). -/
theorem c7_counterexample :
    (sync_project "p1" "u2" "N" none none 7
        [{ id := "p1", user_id := "u1", name := "N", sync_status := "synced",
           created_at := 0, updated_at := 0 }]).map ProjectRow.user_id =
      ["u1"] := by
  decide

/-- C7 (amended): for the merge's payload fields the coalesce rule holds —
`sync_user` coalesces `email`, `username`, `nickname` and `avatar`, and
`sync_project` overwrites `name` (always non-null) and coalesces
`description` and `cloud_id` — but the incoming `user_id` and the fixed
insert-only columns (`subscription_tier`, `created_at`) never overwrite
the existing row's values. -/
theorem c7_field_coalesce
    (users : List UserRow) (u : UserRow) (uid : String)
    (e un nk av : Option String) (ts : Int)
    (projects : List ProjectRow) (p : ProjectRow) (pid uid2 nm : String)
    (d : Option String) (cid : Option Int) (ts2 : Int)
    (hu : u ∈ users) (huid : u.id = uid)
    (hp : p ∈ projects) (hpid : p.id = pid) :
    (∃ u' ∈ sync_user uid e un nk av ts users,
        u'.email = coalesce e u.email ∧ u'.username = coalesce un u.username ∧
        u'.nickname = coalesce nk u.nickname ∧ u'.avatar = coalesce av u.avatar ∧
        u'.subscription_tier = u.subscription_tier ∧ u'.created_at = u.created_at)
    ∧ ∃ p' ∈ sync_project pid uid2 nm d cid ts2 projects,
        p'.name = nm ∧ p'.description = coalesce d p.description ∧
        p'.cloud_id = coalesce cid p.cloud_id ∧ p'.user_id = p.user_id ∧
        p'.sync_status = "synced" := by
  constructor
  · unfold sync_user
    rw [if_pos ⟨u, hu, huid⟩]
    refine ⟨_, List.mem_map_of_mem _ hu, ?_⟩
    rw [if_pos huid]
    exact ⟨rfl, rfl, rfl, rfl, rfl, rfl⟩
  · rw [sync_project_update projects pid uid2 nm d cid ts2 ⟨p, hp, hpid⟩]
    refine ⟨_, List.mem_map_of_mem _ hp, ?_⟩
    rw [if_pos hpid]
    exact ⟨rfl, rfl, rfl, rfl, rfl⟩

/-- Witness for C7 (amended) on concrete singleton tables, with a mix of
null and non-null incoming fields. -/
theorem c7_witness :
    (∃ u' ∈ sync_user "u1" none (some "newname") none none 9
        [{ id := "u1", email := some "a@b", created_at := 0, updated_at := 0 }],
        u'.email = coalesce none (some "a@b") ∧
        u'.username = coalesce (some "newname") none ∧
        u'.nickname = coalesce none none ∧ u'.avatar = coalesce none none ∧
        u'.subscription_tier = "free" ∧ u'.created_at = (0 : Int))
    ∧ ∃ p' ∈ sync_project "p1" "u2" "NewName" (some "d2") (some 5) 9
        [{ id := "p1", user_id := "u1", name := "Old", description := some "x",
           sync_status := "synced", created_at := 0, updated_at := 0 }],
        p'.name = "NewName" ∧ p'.description = coalesce (some "d2") (some "x") ∧
        p'.cloud_id = coalesce (some 5) none ∧ p'.user_id = "u1" ∧
        p'.sync_status = "synced" :=
  c7_field_coalesce
    [{ id := "u1", email := some "a@b", created_at := 0, updated_at := 0 }]
    { id := "u1", email := some "a@b", created_at := 0, updated_at := 0 }
    "u1" none (some "newname") none none 9
    [{ id := "p1", user_id := "u1", name := "Old", description := some "x",
       sync_status := "synced", created_at := 0, updated_at := 0 }]
    { id := "p1", user_id := "u1", name := "Old", description := some "x",
      sync_status := "synced", created_at := 0, updated_at := 0 }
    "p1" "u2" "NewName" (some "d2") (some 5) 9
    (List.mem_singleton_self _) rfl
    (List.mem_singleton_self _) rfl

/-- C8 counterexample: `get_publication` returns a row whose `is_deleted`
flag is set — the query `SELECT * FROM publications WHERE id = ?1`
carries no soft-delete filter, so the claim fails for the publication
point lookup. -/
theorem c8_counterexample :
    (get_publication "q1"
        [{ id := "q1", user_id := "u1", content_id := "c1", account_id := "a1",
           platform := "wx", sync_status := "synced", created_at := 0,
           updated_at := 0, is_deleted := true }]).map
        PublicationRow.is_deleted = some true := by
  decide

/-- C8 (amended): the point lookups `get_project`, `get_content` and
`get_platform_account` never return a row whose `is_deleted` flag is set;
`get_publication`, however, applies no soft-delete filter and returns the
first row with the given id regardless of its `is_deleted` flag. -/
theorem c8_lookups
    (sp : List ProjectRow) (sc : List ContentRow) (sa : List PlatformAccountRow)
    (spub : List PublicationRow) (p : ProjectRow) (c : ContentRow)
    (a : PlatformAccountRow) (q : PublicationRow)
    (pid cid aid qid : String)
    (h1 : get_project pid sp = some p)
    (h2 : get_content cid sc = some c)
    (h3 : get_platform_account aid sa = some a)
    (hq : q.id = qid) :
    p.is_deleted = false ∧ c.is_deleted = false ∧ a.is_deleted = false ∧
      get_publication qid (q :: spub) = some q := by
  refine ⟨?_, ?_, ?_, ?_⟩
  · have h := List.find?_some h1
    simp only [decide_eq_true_eq] at h
    exact h.2
  · have h := List.find?_some h2
    simp only [decide_eq_true_eq] at h
    exact h.2
  · have h := List.find?_some h3
    simp only [decide_eq_true_eq] at h
    exact h.2
  · exact List.find?_cons_of_pos _ (by simp [hq])

/-- Witness for C8 (amended) on concrete singleton tables; the
publication row is soft-deleted yet still returned. -/
theorem c8_witness :
    (false : Bool) = false ∧ (false : Bool) = false ∧ (false : Bool) = false ∧
      get_publication "q1"
          [{ id := "q1", user_id := "u1", content_id := "c1",
             account_id := "a1", platform := "wx", sync_status := "synced",
             created_at := 0, updated_at := 0, is_deleted := true }] =
        some { id := "q1", user_id := "u1", content_id := "c1",
               account_id := "a1", platform := "wx", sync_status := "synced",
               created_at := 0, updated_at := 0, is_deleted := true } :=
  c8_lookups
    [{ id := "p1", user_id := "u1", name := "N", sync_status := "synced",
       created_at := 0, updated_at := 0 }]
    [{ id := "c1", user_id := "u1", project_id := "p1",
       content_type := "article", sync_status := "synced",
       created_at := 0, updated_at := 0 }]
    [{ id := "a1", user_id := "u1", project_id := "p1", platform := "wx",
       account_id := "x", sync_status := "synced",
       created_at := 0, updated_at := 0 }]
    []
    { id := "p1", user_id := "u1", name := "N", sync_status := "synced",
      created_at := 0, updated_at := 0 }
    { id := "c1", user_id := "u1", project_id := "p1",
      content_type := "article", sync_status := "synced",
      created_at := 0, updated_at := 0 }
    { id := "a1", user_id := "u1", project_id := "p1", platform := "wx",
      account_id := "x", sync_status := "synced",
      created_at := 0, updated_at := 0 }
    { id := "q1", user_id := "u1", content_id := "c1", account_id := "a1",
      platform := "wx", sync_status := "synced", created_at := 0,
      updated_at := 0, is_deleted := true }
    "p1" "c1" "a1" "q1"
    (by decide) (by decide) (by decide) rfl

theorem create_platform_account_insert (sa : List PlatformAccountRow)
    (gid uid pid pf aid : String) (aname : Option String) (ts : Int)
    (h : ∀ r ∈ sa, ¬ accountConflict pid pf aid r) :
    create_platform_account gid uid pid pf aid aname ts sa =
      (get_platform_account gid (sa ++
          [{ id := gid, user_id := uid, project_id := pid, platform := pf,
             account_id := aid, account_name := aname,
             sync_status := "pending", created_at := ts, updated_at := ts }]),
        sa ++
          [{ id := gid, user_id := uid, project_id := pid, platform := pf,
             account_id := aid, account_name := aname,
             sync_status := "pending", created_at := ts, updated_at := ts }]) := by
  unfold create_platform_account
  rw [if_neg]
  rintro ⟨r, hr, hc⟩
  exact h r hr hc

theorem create_platform_account_conflict (sa : List PlatformAccountRow)
    (gid uid pid pf aid : String) (aname : Option String) (ts : Int)
    (h : ∃ r ∈ sa, accountConflict pid pf aid r) :
    create_platform_account gid uid pid pf aid aname ts sa =
      (((sa.find? fun r => accountConflict pid pf aid r).map fun r => r.id).bind
          (fun i => get_platform_account i (sa.map fun r =>
            if accountConflict pid pf aid r then
              { r with account_name := coalesce aname r.account_name,
                       sync_status := "pending", updated_at := ts }
            else r)),
        sa.map fun r =>
          if accountConflict pid pf aid r then
            { r with account_name := coalesce aname r.account_name,
                     sync_status := "pending", updated_at := ts }
          else r) := by
  unfold create_platform_account
  rw [if_pos h]

theorem get_platform_account_append_fresh (sa : List PlatformAccountRow)
    (fresh : PlatformAccountRow) (gid : String)
    (h : ∀ r ∈ sa, r.id ≠ gid) (hid : fresh.id = gid)
    (hdel : fresh.is_deleted = false) :
    get_platform_account gid (sa ++ [fresh]) = some fresh := by
  unfold get_platform_account
  rw [find?_append_left_none _ _ _ fun r hrs => by simp [h r hrs]]
  exact List.find?_cons_of_pos _ (by simp [hid, hdel])

/-- C9: applying the same remote payload twice is idempotent. For
`sync_project`, pulling an identical project record twice into a table
that did not contain it yields exactly one row with that id, and the
second application changes nothing but the row's `updated_at`
bookkeeping timestamp. For `create_platform_account`, a second call with
the same `(project_id, platform, account_id)` triple hits the unique
index, updates that same single row (only `updated_at` changes, the
content fields are already equal) and returns the same row id as the
first call. -/
theorem c9_idempotent_upserts
    (sp : List ProjectRow) (pid uid nm : String) (d : Option String)
    (cid : Option Int) (ts1 ts2 : Int)
    (sa : List PlatformAccountRow) (gid1 gid2 auid apid apf aacc : String)
    (aname : Option String) (ta1 ta2 : Int)
    (hfp : ∀ r ∈ sp, r.id ≠ pid)
    (hc : ∀ r ∈ sa, ¬ accountConflict apid apf aacc r)
    (hg : ∀ r ∈ sa, r.id ≠ gid1) :
    (sync_project pid uid nm d cid ts2 (sync_project pid uid nm d cid ts1 sp) =
        (sync_project pid uid nm d cid ts1 sp).map fun r =>
          if r.id = pid then { r with updated_at := ts2 } else r)
    ∧ ((sync_project pid uid nm d cid ts2
          (sync_project pid uid nm d cid ts1 sp)).countP
        (fun r => r.id = pid) = 1)
    ∧ ((create_platform_account gid2 auid apid apf aacc aname ta2
          (create_platform_account gid1 auid apid apf aacc aname ta1 sa).2).2 =
        ((create_platform_account gid1 auid apid apf aacc aname ta1 sa).2).map
          fun r => if accountConflict apid apf aacc r then
            { r with updated_at := ta2 } else r)
    ∧ (((create_platform_account gid2 auid apid apf aacc aname ta2
          (create_platform_account gid1 auid apid apf aacc aname ta1 sa).2).2).countP
        (fun r => accountConflict apid apf aacc r) = 1)
    ∧ (((create_platform_account gid2 auid apid apf aacc aname ta2
          (create_platform_account gid1 auid apid apf aacc aname ta1 sa).2).1).map
          (fun r => r.id) =
        ((create_platform_account gid1 auid apid apf aacc aname ta1 sa).1).map
          (fun r => r.id)) := by
  have hsp1 := sync_project_insert sp pid uid nm d cid ts1 hfp
  have hmemP : ∃ p ∈ sync_project pid uid nm d cid ts1 sp, p.id = pid := by
    rw [hsp1]
    exact ⟨_, List.mem_append_right _ (List.mem_singleton_self _), rfl⟩
  have hA1 : sync_project pid uid nm d cid ts2 (sync_project pid uid nm d cid ts1 sp) =
      (sync_project pid uid nm d cid ts1 sp).map fun r =>
        if r.id = pid then { r with updated_at := ts2 } else r := by
    rw [sync_project_update _ pid uid nm d cid ts2 hmemP]
    apply List.map_congr_left
    intro r hr
    rw [hsp1] at hr
    rcases List.mem_append.mp hr with hrs | hrf
    · rw [if_neg (hfp r hrs), if_neg (hfp r hrs)]
    · rw [List.mem_singleton.mp hrf]
      rw [if_pos rfl, if_pos rfl]
      simp [coalesce_self]
  have hmapsp : sp.map (fun r =>
      if r.id = pid then { r with updated_at := ts2 } else r) = sp := by
    conv_rhs => rw [← List.map_id sp]
    apply List.map_congr_left
    intro r hrs
    rw [if_neg (hfp r hrs)]
    rfl
  have hA2 : (sync_project pid uid nm d cid ts2
      (sync_project pid uid nm d cid ts1 sp)).countP
        (fun r => r.id = pid) = 1 := by
    rw [hA1, hsp1, List.map_append, hmapsp, List.countP_append]
    have hz : sp.countP (fun r => decide (r.id = pid)) = 0 :=
      List.countP_eq_zero.mpr fun r hrs => by simp [hfp r hrs]
    rw [hz]
    simp
  have hsa1 := create_platform_account_insert sa gid1 auid apid apf aacc aname ta1 hc
  have hsa1st : (create_platform_account gid1 auid apid apf aacc aname ta1 sa).2 =
      sa ++
        [{ id := gid1, user_id := auid, project_id := apid, platform := apf,
           account_id := aacc, account_name := aname,
           sync_status := "pending", created_at := ta1, updated_at := ta1 }] := by
    rw [hsa1]
  have hmemA : ∃ r ∈ (create_platform_account gid1 auid apid apf aacc aname ta1 sa).2,
      accountConflict apid apf aacc r := by
    rw [hsa1st]
    exact ⟨_, List.mem_append_right _ (List.mem_singleton_self _), rfl, rfl, rfl⟩
  have hB1 : (create_platform_account gid2 auid apid apf aacc aname ta2
        (create_platform_account gid1 auid apid apf aacc aname ta1 sa).2).2 =
      ((create_platform_account gid1 auid apid apf aacc aname ta1 sa).2).map
        fun r => if accountConflict apid apf aacc r then
          { r with updated_at := ta2 } else r := by
    rw [create_platform_account_conflict _ gid2 auid apid apf aacc aname ta2 hmemA]
    apply List.map_congr_left
    intro r hr
    rw [hsa1st] at hr
    rcases List.mem_append.mp hr with hrs | hrf
    · rw [if_neg (hc r hrs), if_neg (hc r hrs)]
    · rw [List.mem_singleton.mp hrf]
      rw [if_pos ⟨rfl, rfl, rfl⟩, if_pos ⟨rfl, rfl, rfl⟩]
      simp [coalesce_self]
  have hmapsa : sa.map (fun r =>
      if accountConflict apid apf aacc r then
        { r with updated_at := ta2 } else r) = sa := by
    conv_rhs => rw [← List.map_id sa]
    apply List.map_congr_left
    intro r hrs
    rw [if_neg (hc r hrs)]
    rfl
  have hB2 : ((create_platform_account gid2 auid apid apf aacc aname ta2
      (create_platform_account gid1 auid apid apf aacc aname ta1 sa).2).2).countP
        (fun r => accountConflict apid apf aacc r) = 1 := by
    rw [hB1, hsa1st, List.map_append, hmapsa, List.countP_append]
    have hz : sa.countP (fun r => decide (accountConflict apid apf aacc r)) = 0 :=
      List.countP_eq_zero.mpr fun r hrs => by simp [hc r hrs]
    rw [hz]
    simp [accountConflict]
  have hfirst1 : (create_platform_account gid1 auid apid apf aacc aname ta1 sa).1 =
      some { id := gid1, user_id := auid, project_id := apid, platform := apf,
             account_id := aacc, account_name := aname,
             sync_status := "pending", created_at := ta1, updated_at := ta1 } := by
    rw [hsa1]
    exact get_platform_account_append_fresh sa _ gid1 hg rfl rfl
  have hfind : ((create_platform_account gid1 auid apid apf aacc aname ta1 sa).2).find?
      (fun r => accountConflict apid apf aacc r) = some
        { id := gid1, user_id := auid, project_id := apid, platform := apf,
          account_id := aacc, account_name := aname,
          sync_status := "pending", created_at := ta1, updated_at := ta1 } := by
    rw [hsa1st, find?_append_left_none _ _ _ fun r hrs => by simp [hc r hrs]]
    exact List.find?_cons_of_pos _ (by simp [accountConflict])
  have hmap2 : ((create_platform_account gid1 auid apid apf aacc aname ta1 sa).2).map
      (fun r => if accountConflict apid apf aacc r then
        { r with account_name := coalesce aname r.account_name,
                 sync_status := "pending", updated_at := ta2 }
        else r) = sa ++
      [{ id := gid1, user_id := auid, project_id := apid, platform := apf,
         account_id := aacc, account_name := aname,
         sync_status := "pending", created_at := ta1, updated_at := ta2 }] := by
    rw [hsa1st, List.map_append]
    congr 1
    · conv_rhs => rw [← List.map_id sa]
      apply List.map_congr_left
      intro r hrs
      rw [if_neg (hc r hrs)]
      rfl
    · simp [accountConflict, coalesce_self]
  have hsecond1 : (create_platform_account gid2 auid apid apf aacc aname ta2
      (create_platform_account gid1 auid apid apf aacc aname ta1 sa).2).1 =
      some { id := gid1, user_id := auid, project_id := apid, platform := apf,
             account_id := aacc, account_name := aname,
             sync_status := "pending", created_at := ta1, updated_at := ta2 } := by
    rw [create_platform_account_conflict _ gid2 auid apid apf aacc aname ta2 hmemA]
    dsimp only
    rw [hfind, Option.map_some', Option.some_bind, hmap2]
    exact get_platform_account_append_fresh sa _ gid1 hg rfl rfl
  have hB3 : ((create_platform_account gid2 auid apid apf aacc aname ta2
        (create_platform_account gid1 auid apid apf aacc aname ta1 sa).2).1).map
        (fun r => r.id) =
      ((create_platform_account gid1 auid apid apf aacc aname ta1 sa).1).map
        (fun r => r.id) := by
    rw [hsecond1, hfirst1]
    rfl
  exact ⟨hA1, hA2, hB1, hB2, hB3⟩

/-- Witness for C9: double application of the same project payload and
the same platform-account payload starting from empty tables. -/
theorem c9_witness :
    (sync_project "p1" "u1" "N" (some "d") (some 3) 8
        (sync_project "p1" "u1" "N" (some "d") (some 3) 7 []) =
      (sync_project "p1" "u1" "N" (some "d") (some 3) 7 []).map fun r =>
        if r.id = "p1" then { r with updated_at := 8 } else r)
    ∧ ((sync_project "p1" "u1" "N" (some "d") (some 3) 8
          (sync_project "p1" "u1" "N" (some "d") (some 3) 7 [])).countP
        (fun r => r.id = "p1") = 1)
    ∧ ((create_platform_account "g2" "u1" "pp" "wx" "a1" (some "nm") 12
          (create_platform_account "g1" "u1" "pp" "wx" "a1" (some "nm") 11 []).2).2 =
        ((create_platform_account "g1" "u1" "pp" "wx" "a1" (some "nm") 11 []).2).map
          fun r => if accountConflict "pp" "wx" "a1" r then
            { r with updated_at := 12 } else r)
    ∧ (((create_platform_account "g2" "u1" "pp" "wx" "a1" (some "nm") 12
          (create_platform_account "g1" "u1" "pp" "wx" "a1" (some "nm") 11 []).2).2).countP
        (fun r => accountConflict "pp" "wx" "a1" r) = 1)
    ∧ (((create_platform_account "g2" "u1" "pp" "wx" "a1" (some "nm") 12
          (create_platform_account "g1" "u1" "pp" "wx" "a1" (some "nm") 11 []).2).1).map
          (fun r => r.id) =
        ((create_platform_account "g1" "u1" "pp" "wx" "a1" (some "nm") 11 []).1).map
          (fun r => r.id)) :=
  c9_idempotent_upserts [] "p1" "u1" "N" (some "d") (some 3) 7 8
    [] "g1" "g2" "u1" "pp" "wx" "a1" (some "nm") 11 12
    (by simp) (by simp) (by simp)

/-- C10: placeholder provisioning is insert-or-ignore. When a user row
with the given id already exists, `ensure_user_exists` leaves the whole
database unchanged; when a project row with the given id already exists,
`ensure_project_exists` leaves the projects table — that row and every
other row — unchanged (it never overwrites an existing real row). -/
theorem c10_ensure_frame (db db2 : DB) (uid pid uid2 : String) (ts ts2 : Int)
    (hu : ∃ u ∈ db.users, u.id = uid)
    (hp : ∃ p ∈ db2.projects, p.id = pid) :
    ensure_user_exists uid ts db = db ∧
      (ensure_project_exists pid uid2 ts2 db2).projects = db2.projects := by
  constructor
  · unfold ensure_user_exists
    rw [if_pos hu]
  · have hp1 : ∃ p ∈ (ensure_user_exists uid2 ts2 db2).projects, p.id = pid := by
      rw [ensure_user_exists_projects]
      exact hp
    unfold ensure_project_exists
    dsimp only
    rw [if_pos hp1]
    exact ensure_user_exists_projects uid2 ts2 db2

/-- Witness for C10 on a concrete database that already holds the user
and the project being ensured. -/
theorem c10_witness :
    ensure_user_exists "u1" 9
        { users := [{ id := "u1", created_at := 0, updated_at := 0 }],
          projects :=
            [{ id := "p1", user_id := "u1", name := "N",
               sync_status := "synced", created_at := 0, updated_at := 0 }] } =
      { users := [{ id := "u1", created_at := 0, updated_at := 0 }],
        projects :=
          [{ id := "p1", user_id := "u1", name := "N",
             sync_status := "synced", created_at := 0, updated_at := 0 }] }
    ∧ (ensure_project_exists "p1" "u9" 9
        { users := [{ id := "u1", created_at := 0, updated_at := 0 }],
          projects :=
            [{ id := "p1", user_id := "u1", name := "N",
               sync_status := "synced", created_at := 0, updated_at := 0 }] }).projects =
      ({ users := [{ id := "u1", created_at := 0, updated_at := 0 }],
         projects :=
           [{ id := "p1", user_id := "u1", name := "N",
              sync_status := "synced", created_at := 0, updated_at := 0 }] } : DB).projects :=
  c10_ensure_frame
    { users := [{ id := "u1", created_at := 0, updated_at := 0 }],
      projects :=
        [{ id := "p1", user_id := "u1", name := "N",
           sync_status := "synced", created_at := 0, updated_at := 0 }] }
    { users := [{ id := "u1", created_at := 0, updated_at := 0 }],
      projects :=
        [{ id := "p1", user_id := "u1", name := "N",
           sync_status := "synced", created_at := 0, updated_at := 0 }] }
    "u1" "p1" "u9" 9 9
    ⟨_, List.mem_singleton_self _, rfl⟩
    ⟨_, List.mem_singleton_self _, rfl⟩
